import Mathlib

/-!
Shallow embedding of the static resource-breakdown estimator of the
website-performance-analyzer repository (the Cheerio-based analysis route:
`analyzeResourcesWithCheerio` and its helper functions `extractBackgroundImage`,
`estimateCSSSize`, `estimateJSSize`, `estimateImageSize`, `estimateFontSize`,
`estimateOtherResourceSize`).

The parsed HTML document is modelled as a list of elements in document order;
each element carries the attributes the estimator reads (`rel`, `as`, `href`,
`src`, `srcset`, `style`) as optional strings (JavaScript `attr` returns
`undefined` for a missing attribute), its inner HTML text, and a flag recording
whether a `<source>` element sits inside a `<picture>` (for the descendant
selector `picture source`).  Each jQuery-style selector of the source becomes a
decidable predicate on elements, each `.each` loop becomes a `List.foldl` of a
step function over the document, in the source's order, and the mutable
`breakdown` / `totalEstimatedSize` state becomes an explicitly threaded record.
JavaScript numbers (used here only as integer counters and byte counts) are
modelled as `Int`; JavaScript string truthiness (`undefined` and `""` falsy) is
modelled explicitly.
-/

/-- Does the pattern (first argument) occur as a leading block of the text
(second argument)?  Helper for substring search. -/
def matchHere : List Char → List Char → Bool
  | [], _ => true
  | _ :: _, [] => false
  | p :: ps, c :: cs => p = c && matchHere ps cs

/-- Substring occurrence on character lists: `hasSub pat s` is true iff `pat`
occurs contiguously inside `s` (the semantics of JavaScript
`String.prototype.includes`). -/
def hasSub : List Char → List Char → Bool
  | pat, [] => pat.isEmpty
  | pat, c :: cs => matchHere pat (c :: cs) || hasSub pat cs

/-- JavaScript `s.includes(pat)` on Lean strings. -/
def strHas (s pat : String) : Bool := hasSub pat.data s.data

/-- Everything after the last `'.'` of the list, or the whole list when it has
no `'.'`: the semantics of JavaScript `s.split('.').pop()`. -/
def afterLastDot (l : List Char) : List Char :=
  (l.reverse.takeWhile (fun c => c != '.')).reverse

/-- The extension key used by the size estimators: the substring after the
final `'.'` (query strings are not stripped), lower-cased — the semantics of
`src.split('.').pop()?.toLowerCase()`. -/
def extKey (s : String) : List Char := (afterLastDot s.data).map Char.toLower

/-- UTF-8 byte width of one unicode scalar value. -/
def charUtf8Len (c : Char) : Int :=
  if c.toNat < 0x80 then 1
  else if c.toNat < 0x800 then 2
  else if c.toNat < 0x10000 then 3
  else 4

/-- UTF-8 byte length of a character list. -/
def utf8LenCL : List Char → Int
  | [] => 0
  | c :: cs => charUtf8Len c + utf8LenCL cs

/-- UTF-8 byte length of a string: the semantics of
`Buffer.byteLength(s, 'utf8')`. -/
def utf8ByteLen (s : String) : Int := utf8LenCL s.data

/-- Whitespace as skipped by the `\s*` part of the background-image pattern. -/
def isWsChar (c : Char) : Bool := c = ' ' || c = '\t' || c = '\n' || c = '\r'

/-- Leading- and trailing-whitespace removal, the semantics of JavaScript
`String.prototype.trim` on the whitespace characters above. -/
def trimCL (l : List Char) : List Char :=
  ((l.dropWhile isWsChar).reverse.dropWhile isWsChar).reverse

/-- Single or double quote, the character class of `['"]` in the
background-image pattern. -/
def isQuoteChar (c : Char) : Bool := c = '\'' || c = '"'

/-- Case-insensitive literal match: consume the pattern (first argument) from
the front of the text, returning the remaining text on success. -/
def matchLitCI : List Char → List Char → Option (List Char)
  | [], rest => some rest
  | _ :: _, [] => none
  | p :: ps, c :: cs => if p.toLower = c.toLower then matchLitCI ps cs else none

/-- Skip the whitespace matched by `\s*`. -/
def skipWs : List Char → List Char
  | [] => []
  | c :: cs => if isWsChar c then skipWs cs else c :: cs

/-- Split into the longest quote-free leading block and the remainder. -/
def spanNonQuote : List Char → List Char × List Char
  | [] => ([], [])
  | c :: cs =>
    if isQuoteChar c then ([], c :: cs)
    else
      let p := spanNonQuote cs
      (c :: p.1, p.2)

/-- The part of the list strictly before its last `')'`, or `none` when the
list has no `')'`. -/
def beforeLastParen : List Char → Option (List Char)
  | [] => none
  | c :: cs =>
    match beforeLastParen cs with
    | some p => some (c :: p)
    | none => if c = ')' then some [] else none

/-- The capture of `['"]?([^'"]+)['"]?\)` starting at the given position:
an optional opening quote, then a greedy non-empty run of quote-free
characters that backtracks until an optional quote followed by `')'`
closes the match. -/
def captureFrom (l : List Char) : Option (List Char) :=
  let body := match l with
    | c :: cs => if isQuoteChar c then cs else l
    | [] => []
  let run := (spanNonQuote body).1
  let term := (spanNonQuote body).2
  let fullOk := match term with
    | q :: c :: _ => isQuoteChar q && c = ')'
    | _ => false
  if fullOk && !run.isEmpty then some run
  else
    match beforeLastParen run with
    | some p => if p.isEmpty then none else some p
    | none => none

/-- Attempt the whole pattern
`background-image:\s*url\(['"]?([^'"]+)['"]?\)` (case-insensitively) at the
current position, returning the capture group. -/
def bgMatchAt (l : List Char) : Option (List Char) :=
  match matchLitCI "background-image:".data l with
  | none => none
  | some r1 =>
    match matchLitCI "url(".data (skipWs r1) with
    | none => none
    | some r2 => captureFrom r2

/-- Search for the first position at which the background-image pattern
matches, as `String.prototype.match` does. -/
def bgSearch : List Char → Option (List Char)
  | [] => none
  | c :: cs =>
    match bgMatchAt (c :: cs) with
    | some cap => some cap
    | none => bgSearch cs

/-- `extractBackgroundImage` of the source: `null` on a missing or empty style
attribute, otherwise the first capture of the background-image pattern. -/
def extractBackgroundImage (style : Option String) : Option String :=
  match style with
  | none => none
  | some s =>
    if s.data.isEmpty then none
    else
      match bgSearch s.data with
      | none => none
      | some cap => some (String.mk cap)

/-- One element of the parsed document, carrying exactly the data the
estimator reads.  Tag names are the lower-case names cheerio produces;
a missing attribute is `none`. -/
structure Element where
  tag : String
  rel : Option String := none
  asAttr : Option String := none
  href : Option String := none
  src : Option String := none
  srcset : Option String := none
  style : Option String := none
  inner : String := ""
  inPicture : Bool := false
deriving Repr, DecidableEq

/-- One category's tally: `{ count, size }`. -/
structure Tally where
  count : Int
  size : Int
deriving Repr, DecidableEq

/-- The per-category breakdown record with its six fixed keys, in the
source's insertion order. -/
structure Breakdown where
  document : Tally
  stylesheet : Tally
  script : Tally
  image : Tally
  font : Tally
  other : Tally
deriving Repr, DecidableEq

/-- The six resource categories. -/
inductive Category where
  | document | stylesheet | script | image | font | other
deriving Repr, DecidableEq

/-- Look one category up in a breakdown. -/
def Breakdown.get (b : Breakdown) : Category → Tally
  | .document => b.document
  | .stylesheet => b.stylesheet
  | .script => b.script
  | .image => b.image
  | .font => b.font
  | .other => b.other

/-- The estimator's return value. -/
structure AnalysisResult where
  breakdown : Breakdown
  totalRequests : Int
  totalEstimatedSize : Int
deriving Repr, DecidableEq

/-- The mutable state of `analyzeResourcesWithCheerio`, threaded explicitly. -/
structure EstState where
  breakdown : Breakdown
  totalEstimatedSize : Int
deriving Repr, DecidableEq

/-- JavaScript truthiness of an `attr` result: `undefined` and `""` are
falsy. -/
def truthy : Option String → Bool
  | none => false
  | some s => !s.data.isEmpty

/-- JavaScript `a || b` on `attr` results. -/
def jsOr (a b : Option String) : Option String :=
  if truthy a then a else b

/-- Selector `link[rel="stylesheet"], link[rel="preload"][as="style"]`. -/
def matchesCssLink (e : Element) : Bool :=
  e.tag = "link" &&
    (e.rel = some "stylesheet" || (e.rel = some "preload" && e.asAttr = some "style"))

/-- Selector `style`. -/
def matchesInlineStyle (e : Element) : Bool := e.tag = "style"

/-- Selector `script[src]` (the attribute is present, possibly empty). -/
def matchesScriptSrc (e : Element) : Bool := e.tag = "script" && e.src.isSome

/-- Selector `script:not([src])`. -/
def matchesInlineScript (e : Element) : Bool := e.tag = "script" && !e.src.isSome

/-- Does the element's `style` attribute contain `background-image`
(the attribute-substring selector `[style*="background-image"]`)? -/
def styleHasBgImage (e : Element) : Bool :=
  match e.style with
  | some st => strHas st "background-image"
  | none => false

/-- Selector `img, picture source, [style*="background-image"]` (a union
query returns each matching element once). -/
def matchesImage (e : Element) : Bool :=
  e.tag = "img" || (e.tag = "source" && e.inPicture) || styleHasBgImage e

/-- Selector `link[rel="preload"][as="font"], link[href*="font"]`. -/
def matchesFontLink (e : Element) : Bool :=
  e.tag = "link" &&
    ((e.rel = some "preload" && e.asAttr = some "font") ||
      (match e.href with
       | some h => strHas h "font"
       | none => false))

/-- Selector `link[href*="fonts.googleapis.com"], link[href*="fonts.google.com"],
link[href*="typekit.net"]`. -/
def matchesWebFontCss (e : Element) : Bool :=
  e.tag = "link" &&
    (match e.href with
     | some h =>
       strHas h "fonts.googleapis.com" || strHas h "fonts.google.com" ||
         strHas h "typekit.net"
     | none => false)

/-- Selector `link[rel="icon"], link[rel="manifest"], embed, object, audio,
video`. -/
def matchesOtherRes (e : Element) : Bool :=
  (e.tag = "link" && (e.rel = some "icon" || e.rel = some "manifest")) ||
    e.tag = "embed" || e.tag = "object" || e.tag = "audio" || e.tag = "video"

/-- `estimateCSSSize` of the source. -/
def estimateCSSSize (href : String) : Int :=
  if strHas href "bootstrap" || strHas href "tailwind" then 150000
  else if strHas href "font-awesome" || strHas href "material-icons" then 75000
  else if strHas href ".min.css" then 25000
  else 40000

/-- `estimateJSSize` of the source. -/
def estimateJSSize (src : String) : Int :=
  if strHas src "react" || strHas src "vue" || strHas src "angular" then 200000
  else if strHas src "jquery" then 85000
  else if strHas src "lodash" || strHas src "moment" then 70000
  else if strHas src ".min.js" then 30000
  else 50000

/-- `estimateImageSize` of the source. -/
def estimateImageSize (src : String) : Int :=
  let ext := extKey src
  if ext = "svg".data then 5000
  else if ext = "png".data then 80000
  else if ext = "jpg".data || ext = "jpeg".data then 60000
  else if ext = "webp".data then 40000
  else if ext = "gif".data then 100000
  else 75000

/-- `estimateFontSize` of the source. -/
def estimateFontSize (href : String) : Int :=
  let ext := extKey href
  if ext = "woff2".data then 25000
  else if ext = "woff".data then 35000
  else if ext = "ttf".data then 60000
  else 30000

/-- `estimateOtherResourceSize` of the source. -/
def estimateOtherResourceSize (href : String) : Int :=
  if strHas href "favicon" then 5000
  else if strHas href "manifest" then 2000
  else 20000

/-- The breakdown as initialised by the source: zero everywhere except
`document`, which starts at count 1. -/
def initBreakdown : Breakdown :=
  { document := ⟨1, 0⟩, stylesheet := ⟨0, 0⟩, script := ⟨0, 0⟩,
    image := ⟨0, 0⟩, font := ⟨0, 0⟩, other := ⟨0, 0⟩ }

/-- The estimator's initial state: the initial breakdown and a zero running
total. -/
def initState : EstState := ⟨initBreakdown, 0⟩

/-- Body of the `cssLinks.each` loop. -/
def stepCssLink (st : EstState) (e : Element) : EstState :=
  if matchesCssLink e then
    match e.href with
    | some href =>
      if href.data.isEmpty then st
      else
        let estimatedSize := estimateCSSSize href
        { st with
            breakdown := { st.breakdown with
              stylesheet := ⟨st.breakdown.stylesheet.count + 1,
                             st.breakdown.stylesheet.size + estimatedSize⟩ },
            totalEstimatedSize := st.totalEstimatedSize + estimatedSize }
    | none => st
  else st

/-- Body of the `inlineStyles.each` loop. -/
def stepInlineStyle (st : EstState) (e : Element) : EstState :=
  if matchesInlineStyle e then
    if e.inner.data.isEmpty then st
    else
      let size := utf8ByteLen e.inner
      { st with
          breakdown := { st.breakdown with
            stylesheet := ⟨st.breakdown.stylesheet.count + 1,
                           st.breakdown.stylesheet.size + size⟩ },
          totalEstimatedSize := st.totalEstimatedSize + size }
  else st

/-- Body of the `scriptTags.each` loop. -/
def stepScriptSrc (st : EstState) (e : Element) : EstState :=
  if matchesScriptSrc e then
    match e.src with
    | some src =>
      if src.data.isEmpty then st
      else
        let estimatedSize := estimateJSSize src
        { st with
            breakdown := { st.breakdown with
              script := ⟨st.breakdown.script.count + 1,
                         st.breakdown.script.size + estimatedSize⟩ },
            totalEstimatedSize := st.totalEstimatedSize + estimatedSize }
    | none => st
  else st

/-- Body of the `inlineScripts.each` loop. -/
def stepInlineScript (st : EstState) (e : Element) : EstState :=
  if matchesInlineScript e then
    if e.inner.data.isEmpty then st
    else if (trimCL e.inner.data).isEmpty then st
    else
      let size := utf8ByteLen e.inner
      { st with
          breakdown := { st.breakdown with
            script := ⟨st.breakdown.script.count + 1,
                       st.breakdown.script.size + size⟩ },
          totalEstimatedSize := st.totalEstimatedSize + size }
  else st

/-- The image-source fallback chain
`attr('src') || attr('srcset') || extractBackgroundImage(attr('style'))`. -/
def imageSrcOf (e : Element) : Option String :=
  jsOr e.src (jsOr e.srcset (extractBackgroundImage e.style))

/-- Body of the `images.each` loop. -/
def stepImage (st : EstState) (e : Element) : EstState :=
  if matchesImage e then
    match imageSrcOf e with
    | some src =>
      if src.data.isEmpty then st
      else
        let estimatedSize := estimateImageSize src
        { st with
            breakdown := { st.breakdown with
              image := ⟨st.breakdown.image.count + 1,
                        st.breakdown.image.size + estimatedSize⟩ },
            totalEstimatedSize := st.totalEstimatedSize + estimatedSize }
    | none => st
  else st

/-- Body of the `fontLinks.each` loop. -/
def stepFontLink (st : EstState) (e : Element) : EstState :=
  if matchesFontLink e then
    match e.href with
    | some href =>
      if href.data.isEmpty then st
      else
        let estimatedSize := estimateFontSize href
        { st with
            breakdown := { st.breakdown with
              font := ⟨st.breakdown.font.count + 1,
                       st.breakdown.font.size + estimatedSize⟩ },
            totalEstimatedSize := st.totalEstimatedSize + estimatedSize }
    | none => st
  else st

/-- Body of the `webFontCSS.each` loop: two extra font entries and a single
60000-byte web-font-family size estimate per matching link. -/
def stepWebFont (st : EstState) (e : Element) : EstState :=
  if matchesWebFontCss e then
    { st with
        breakdown := { st.breakdown with
          font := ⟨st.breakdown.font.count + 2,
                   st.breakdown.font.size + 60000⟩ },
        totalEstimatedSize := st.totalEstimatedSize + 60000 }
  else st

/-- Body of the `otherResources.each` loop. -/
def stepOtherRes (st : EstState) (e : Element) : EstState :=
  if matchesOtherRes e then
    match jsOr e.href e.src with
    | some href =>
      if href.data.isEmpty then st
      else
        let estimatedSize := estimateOtherResourceSize href
        { st with
            breakdown := { st.breakdown with
              other := ⟨st.breakdown.other.count + 1,
                        st.breakdown.other.size + estimatedSize⟩ },
            totalEstimatedSize := st.totalEstimatedSize + estimatedSize }
    | none => st
  else st

/-- Sum of the six categories' counts, in `Object.values` insertion order. -/
def sumCounts (b : Breakdown) : Int :=
  b.document.count + b.stylesheet.count + b.script.count + b.image.count +
    b.font.count + b.other.count

/-- Sum of the six categories' sizes. -/
def sumSizes (b : Breakdown) : Int :=
  b.document.size + b.stylesheet.size + b.script.size + b.image.size +
    b.font.size + b.other.size

/-- The estimator state after the eight `.each` loops of the source, run in
the source's order over the document. -/
def estimatorState (doc : List Element) : EstState :=
  let st1 := doc.foldl stepCssLink initState
  let st2 := doc.foldl stepInlineStyle st1
  let st3 := doc.foldl stepScriptSrc st2
  let st4 := doc.foldl stepInlineScript st3
  let st5 := doc.foldl stepImage st4
  let st6 := doc.foldl stepFontLink st5
  let st7 := doc.foldl stepWebFont st6
  let st8 := doc.foldl stepOtherRes st7
  st8

/-- `analyzeResourcesWithCheerio` of the source: the final breakdown, the
count sum as `totalRequests`, and the running size total.  The `baseUrl`
argument is accepted, as in the source, and never read. -/
def analyzeResourcesWithCheerio (doc : List Element) (baseUrl : String) :
    AnalysisResult :=
  let st := estimatorState doc
  { breakdown := st.breakdown,
    totalRequests := sumCounts st.breakdown,
    totalEstimatedSize := st.totalEstimatedSize }

/-- Componentwise addition of tallies. -/
def addTally (a b : Tally) : Tally := ⟨a.count + b.count, a.size + b.size⟩

/-- Componentwise addition of breakdowns. -/
def addBreakdown (a b : Breakdown) : Breakdown :=
  ⟨addTally a.document b.document, addTally a.stylesheet b.stylesheet,
   addTally a.script b.script, addTally a.image b.image,
   addTally a.font b.font, addTally a.other b.other⟩

/-- Componentwise addition of estimator states. -/
def addSt (a b : EstState) : EstState :=
  ⟨addBreakdown a.breakdown b.breakdown,
   a.totalEstimatedSize + b.totalEstimatedSize⟩

/-- The all-zero tally. -/
def zeroTally : Tally := ⟨0, 0⟩

/-- The all-zero breakdown. -/
def zeroBreakdown : Breakdown :=
  ⟨zeroTally, zeroTally, zeroTally, zeroTally, zeroTally, zeroTally⟩

/-- The all-zero estimator state. -/
def zeroState : EstState := ⟨zeroBreakdown, 0⟩

/-- What one element adds to the state in the CSS-link loop. -/
def cssContrib (e : Element) : EstState :=
  if matchesCssLink e then
    match e.href with
    | some href =>
      if href.data.isEmpty then zeroState
      else ⟨{ zeroBreakdown with stylesheet := ⟨1, estimateCSSSize href⟩ },
            estimateCSSSize href⟩
    | none => zeroState
  else zeroState

/-- What one element adds to the state in the inline-style loop. -/
def inlineStyleContrib (e : Element) : EstState :=
  if matchesInlineStyle e then
    if e.inner.data.isEmpty then zeroState
    else ⟨{ zeroBreakdown with stylesheet := ⟨1, utf8ByteLen e.inner⟩ },
          utf8ByteLen e.inner⟩
  else zeroState

/-- What one element adds to the state in the external-script loop. -/
def scriptSrcContrib (e : Element) : EstState :=
  if matchesScriptSrc e then
    match e.src with
    | some src =>
      if src.data.isEmpty then zeroState
      else ⟨{ zeroBreakdown with script := ⟨1, estimateJSSize src⟩ },
            estimateJSSize src⟩
    | none => zeroState
  else zeroState

/-- What one element adds to the state in the inline-script loop. -/
def inlineScriptContrib (e : Element) : EstState :=
  if matchesInlineScript e then
    if e.inner.data.isEmpty then zeroState
    else if (trimCL e.inner.data).isEmpty then zeroState
    else ⟨{ zeroBreakdown with script := ⟨1, utf8ByteLen e.inner⟩ },
          utf8ByteLen e.inner⟩
  else zeroState

/-- What one element adds to the state in the image loop. -/
def imageContrib (e : Element) : EstState :=
  if matchesImage e then
    match imageSrcOf e with
    | some src =>
      if src.data.isEmpty then zeroState
      else ⟨{ zeroBreakdown with image := ⟨1, estimateImageSize src⟩ },
            estimateImageSize src⟩
    | none => zeroState
  else zeroState

/-- What one element adds to the state in the direct-font-link loop. -/
def fontLinkContrib (e : Element) : EstState :=
  if matchesFontLink e then
    match e.href with
    | some href =>
      if href.data.isEmpty then zeroState
      else ⟨{ zeroBreakdown with font := ⟨1, estimateFontSize href⟩ },
            estimateFontSize href⟩
    | none => zeroState
  else zeroState

/-- What one element adds to the state in the web-font-CSS loop. -/
def webFontContrib (e : Element) : EstState :=
  if matchesWebFontCss e then
    ⟨{ zeroBreakdown with font := ⟨2, 60000⟩ }, 60000⟩
  else zeroState

/-- What one element adds to the state in the other-resources loop. -/
def otherResContrib (e : Element) : EstState :=
  if matchesOtherRes e then
    match jsOr e.href e.src with
    | some href =>
      if href.data.isEmpty then zeroState
      else ⟨{ zeroBreakdown with other := ⟨1, estimateOtherResourceSize href⟩ },
            estimateOtherResourceSize href⟩
    | none => zeroState
  else zeroState

/-- The combined contribution of one element across the eight loops. -/
def ruleContrib (e : Element) : EstState :=
  addSt (cssContrib e) (addSt (inlineStyleContrib e) (addSt (scriptSrcContrib e)
    (addSt (inlineScriptContrib e) (addSt (imageContrib e) (addSt (fontLinkContrib e)
      (addSt (webFontContrib e) (otherResContrib e)))))))

/-- Well-formedness of a per-element contribution: it leaves `document`
untouched, adds non-negative counts and sizes, and adds to the running total
exactly what it adds to the category sizes. -/
def okDelta (d : EstState) : Prop :=
  d.breakdown.document.count = 0 ∧ d.breakdown.document.size = 0 ∧
  0 ≤ d.breakdown.stylesheet.count ∧ 0 ≤ d.breakdown.stylesheet.size ∧
  0 ≤ d.breakdown.script.count ∧ 0 ≤ d.breakdown.script.size ∧
  0 ≤ d.breakdown.image.count ∧ 0 ≤ d.breakdown.image.size ∧
  0 ≤ d.breakdown.font.count ∧ 0 ≤ d.breakdown.font.size ∧
  0 ≤ d.breakdown.other.count ∧ 0 ≤ d.breakdown.other.size ∧
  d.totalEstimatedSize = sumSizes d.breakdown

/-- The one `<link href="https://fonts.googleapis.com/css?family=Roboto">`
element of the spec's web-font example. -/
def googleFontsLink : Element :=
  { tag := "link", href := some "https://fonts.googleapis.com/css?family=Roboto" }

/-- The one `<script src="jquery.min.js">` element of the spec's
substring-priority example. -/
def jqueryScriptEl : Element :=
  { tag := "script", src := some "jquery.min.js" }

/-- A `<link rel="stylesheet" href="font-awesome.min.css">` element, whose
href contains the substring `font`. -/
def fontAwesomeLink : Element :=
  { tag := "link", rel := some "stylesheet", href := some "font-awesome.min.css" }

/-- An `<img>` element with no `src`, no `srcset` and no `style` attribute. -/
def bareImg : Element := { tag := "img" }

/-- Each CSS-link step adds exactly its contribution. -/
theorem stepCssLink_eq (st : EstState) (e : Element) :
    stepCssLink st e = addSt st (cssContrib e) := by
  obtain ⟨⟨⟨a1, a2⟩, ⟨a3, a4⟩, ⟨a5, a6⟩, ⟨a7, a8⟩, ⟨a9, a10⟩, ⟨a11, a12⟩⟩, a13⟩ := st
  unfold stepCssLink cssContrib
  repeat' split
  all_goals simp [addSt, addBreakdown, addTally, zeroState, zeroBreakdown, zeroTally]

/-- Each inline-style step adds exactly its contribution. -/
theorem stepInlineStyle_eq (st : EstState) (e : Element) :
    stepInlineStyle st e = addSt st (inlineStyleContrib e) := by
  obtain ⟨⟨⟨a1, a2⟩, ⟨a3, a4⟩, ⟨a5, a6⟩, ⟨a7, a8⟩, ⟨a9, a10⟩, ⟨a11, a12⟩⟩, a13⟩ := st
  unfold stepInlineStyle inlineStyleContrib
  repeat' split
  all_goals simp [addSt, addBreakdown, addTally, zeroState, zeroBreakdown, zeroTally]

/-- Each external-script step adds exactly its contribution. -/
theorem stepScriptSrc_eq (st : EstState) (e : Element) :
    stepScriptSrc st e = addSt st (scriptSrcContrib e) := by
  obtain ⟨⟨⟨a1, a2⟩, ⟨a3, a4⟩, ⟨a5, a6⟩, ⟨a7, a8⟩, ⟨a9, a10⟩, ⟨a11, a12⟩⟩, a13⟩ := st
  unfold stepScriptSrc scriptSrcContrib
  repeat' split
  all_goals simp [addSt, addBreakdown, addTally, zeroState, zeroBreakdown, zeroTally]

/-- Each inline-script step adds exactly its contribution. -/
theorem stepInlineScript_eq (st : EstState) (e : Element) :
    stepInlineScript st e = addSt st (inlineScriptContrib e) := by
  obtain ⟨⟨⟨a1, a2⟩, ⟨a3, a4⟩, ⟨a5, a6⟩, ⟨a7, a8⟩, ⟨a9, a10⟩, ⟨a11, a12⟩⟩, a13⟩ := st
  unfold stepInlineScript inlineScriptContrib
  repeat' split
  all_goals simp [addSt, addBreakdown, addTally, zeroState, zeroBreakdown, zeroTally]

/-- Each image step adds exactly its contribution. -/
theorem stepImage_eq (st : EstState) (e : Element) :
    stepImage st e = addSt st (imageContrib e) := by
  obtain ⟨⟨⟨a1, a2⟩, ⟨a3, a4⟩, ⟨a5, a6⟩, ⟨a7, a8⟩, ⟨a9, a10⟩, ⟨a11, a12⟩⟩, a13⟩ := st
  unfold stepImage imageContrib
  repeat' split
  all_goals simp [addSt, addBreakdown, addTally, zeroState, zeroBreakdown, zeroTally]

/-- Each direct-font-link step adds exactly its contribution. -/
theorem stepFontLink_eq (st : EstState) (e : Element) :
    stepFontLink st e = addSt st (fontLinkContrib e) := by
  obtain ⟨⟨⟨a1, a2⟩, ⟨a3, a4⟩, ⟨a5, a6⟩, ⟨a7, a8⟩, ⟨a9, a10⟩, ⟨a11, a12⟩⟩, a13⟩ := st
  unfold stepFontLink fontLinkContrib
  repeat' split
  all_goals simp [addSt, addBreakdown, addTally, zeroState, zeroBreakdown, zeroTally]

/-- Each web-font step adds exactly its contribution. -/
theorem stepWebFont_eq (st : EstState) (e : Element) :
    stepWebFont st e = addSt st (webFontContrib e) := by
  obtain ⟨⟨⟨a1, a2⟩, ⟨a3, a4⟩, ⟨a5, a6⟩, ⟨a7, a8⟩, ⟨a9, a10⟩, ⟨a11, a12⟩⟩, a13⟩ := st
  unfold stepWebFont webFontContrib
  repeat' split
  all_goals simp [addSt, addBreakdown, addTally, zeroState, zeroBreakdown, zeroTally]

/-- Each other-resources step adds exactly its contribution. -/
theorem stepOtherRes_eq (st : EstState) (e : Element) :
    stepOtherRes st e = addSt st (otherResContrib e) := by
  obtain ⟨⟨⟨a1, a2⟩, ⟨a3, a4⟩, ⟨a5, a6⟩, ⟨a7, a8⟩, ⟨a9, a10⟩, ⟨a11, a12⟩⟩, a13⟩ := st
  unfold stepOtherRes otherResContrib
  repeat' split
  all_goals simp [addSt, addBreakdown, addTally, zeroState, zeroBreakdown, zeroTally]

/-- Adding the zero state is the identity. -/
theorem addSt_zero (st : EstState) : addSt st zeroState = st := by
  obtain ⟨⟨⟨a1, a2⟩, ⟨a3, a4⟩, ⟨a5, a6⟩, ⟨a7, a8⟩, ⟨a9, a10⟩, ⟨a11, a12⟩⟩, a13⟩ := st
  simp [addSt, addBreakdown, addTally, zeroState, zeroBreakdown, zeroTally]

/-- The two right summands of a double sum may be swapped. -/
theorem addSt_swap (a b c : EstState) :
    addSt (addSt a b) c = addSt (addSt a c) b := by
  obtain ⟨⟨⟨a1, a2⟩, ⟨a3, a4⟩, ⟨a5, a6⟩, ⟨a7, a8⟩, ⟨a9, a10⟩, ⟨a11, a12⟩⟩, a13⟩ := a
  obtain ⟨⟨⟨b1, b2⟩, ⟨b3, b4⟩, ⟨b5, b6⟩, ⟨b7, b8⟩, ⟨b9, b10⟩, ⟨b11, b12⟩⟩, b13⟩ := b
  obtain ⟨⟨⟨c1, c2⟩, ⟨c3, c4⟩, ⟨c5, c6⟩, ⟨c7, c8⟩, ⟨c9, c10⟩, ⟨c11, c12⟩⟩, c13⟩ := c
  simp only [addSt, addBreakdown, addTally, EstState.mk.injEq, Breakdown.mk.injEq,
    Tally.mk.injEq]
  omega

/-- A left fold whose initial state carries an extra summand carries it to
the final state. -/
theorem foldl_addSt_pull {f : EstState → Element → EstState}
    {g : Element → EstState} (hf : ∀ st e, f st e = addSt st (g e)) :
    ∀ (l : List Element) (s d : EstState),
      List.foldl f (addSt s d) l = addSt (List.foldl f s l) d := by
  intro l
  induction l with
  | nil => intro s d; rfl
  | cons x t ih =>
    intro s d
    rw [List.foldl_cons, List.foldl_cons, hf, hf, addSt_swap]
    exact ih (addSt s (g x)) d

/-- Folding an additive step over a list with one element inserted equals the
fold over the list without it, plus that element's contribution. -/
theorem foldl_insert_of_add {f : EstState → Element → EstState}
    {g : Element → EstState} (hf : ∀ st e, f st e = addSt st (g e))
    (l1 l2 : List Element) (e : Element) (st : EstState) :
    List.foldl f st (l1 ++ e :: l2) = addSt (List.foldl f st (l1 ++ l2)) (g e) := by
  rw [List.foldl_append, List.foldl_append, List.foldl_cons, hf]
  exact foldl_addSt_pull hf l2 (List.foldl f st l1) (g e)

/-- Normalisation of the left-nested sum produced by the eight loops into the
initial state plus a right-nested combined contribution. -/
theorem addSt_rearrange (x d1 d2 d3 d4 d5 d6 d7 d8 : EstState) :
    addSt (addSt (addSt (addSt (addSt (addSt (addSt (addSt x d1) d2) d3) d4) d5) d6) d7) d8
      = addSt x (addSt d1 (addSt d2 (addSt d3 (addSt d4 (addSt d5 (addSt d6 (addSt d7 d8))))))) := by
  obtain ⟨⟨⟨a1, a2⟩, ⟨a3, a4⟩, ⟨a5, a6⟩, ⟨a7, a8⟩, ⟨a9, a10⟩, ⟨a11, a12⟩⟩, a13⟩ := x
  obtain ⟨⟨⟨b1, b2⟩, ⟨b3, b4⟩, ⟨b5, b6⟩, ⟨b7, b8⟩, ⟨b9, b10⟩, ⟨b11, b12⟩⟩, b13⟩ := d1
  obtain ⟨⟨⟨c1, c2⟩, ⟨c3, c4⟩, ⟨c5, c6⟩, ⟨c7, c8⟩, ⟨c9, c10⟩, ⟨c11, c12⟩⟩, c13⟩ := d2
  obtain ⟨⟨⟨e1, e2⟩, ⟨e3, e4⟩, ⟨e5, e6⟩, ⟨e7, e8⟩, ⟨e9, e10⟩, ⟨e11, e12⟩⟩, e13⟩ := d3
  obtain ⟨⟨⟨f1, f2⟩, ⟨f3, f4⟩, ⟨f5, f6⟩, ⟨f7, f8⟩, ⟨f9, f10⟩, ⟨f11, f12⟩⟩, f13⟩ := d4
  obtain ⟨⟨⟨g1, g2⟩, ⟨g3, g4⟩, ⟨g5, g6⟩, ⟨g7, g8⟩, ⟨g9, g10⟩, ⟨g11, g12⟩⟩, g13⟩ := d5
  obtain ⟨⟨⟨h1, h2⟩, ⟨h3, h4⟩, ⟨h5, h6⟩, ⟨h7, h8⟩, ⟨h9, h10⟩, ⟨h11, h12⟩⟩, h13⟩ := d6
  obtain ⟨⟨⟨i1, i2⟩, ⟨i3, i4⟩, ⟨i5, i6⟩, ⟨i7, i8⟩, ⟨i9, i10⟩, ⟨i11, i12⟩⟩, i13⟩ := d7
  obtain ⟨⟨⟨j1, j2⟩, ⟨j3, j4⟩, ⟨j5, j6⟩, ⟨j7, j8⟩, ⟨j9, j10⟩, ⟨j11, j12⟩⟩, j13⟩ := d8
  simp only [addSt, addBreakdown, addTally, EstState.mk.injEq, Breakdown.mk.injEq,
    Tally.mk.injEq]
  omega

/-- The empty document leaves the estimator in its initial state. -/
theorem estimatorState_nil : estimatorState [] = initState := rfl

/-- Inserting one element anywhere into the document adds exactly that
element's combined contribution to the final estimator state. -/
theorem estimatorState_insert (l1 l2 : List Element) (e : Element) :
    estimatorState (l1 ++ e :: l2)
      = addSt (estimatorState (l1 ++ l2)) (ruleContrib e) := by
  simp only [estimatorState, ruleContrib]
  simp only [foldl_insert_of_add stepCssLink_eq, foldl_insert_of_add stepInlineStyle_eq,
    foldl_insert_of_add stepScriptSrc_eq, foldl_insert_of_add stepInlineScript_eq,
    foldl_insert_of_add stepImage_eq, foldl_insert_of_add stepFontLink_eq,
    foldl_insert_of_add stepWebFont_eq, foldl_insert_of_add stepOtherRes_eq,
    foldl_addSt_pull stepCssLink_eq, foldl_addSt_pull stepInlineStyle_eq,
    foldl_addSt_pull stepScriptSrc_eq, foldl_addSt_pull stepInlineScript_eq,
    foldl_addSt_pull stepImage_eq, foldl_addSt_pull stepFontLink_eq,
    foldl_addSt_pull stepWebFont_eq, foldl_addSt_pull stepOtherRes_eq]
  exact addSt_rearrange _ _ _ _ _ _ _ _ _

/-- Prepending one element to the document adds exactly its combined
contribution. -/
theorem estimatorState_cons (e : Element) (l : List Element) :
    estimatorState (e :: l) = addSt (estimatorState l) (ruleContrib e) := by
  have h := estimatorState_insert [] l e
  simpa using h

/-- CSS size estimates are non-negative. -/
theorem estimateCSSSize_nonneg (href : String) : 0 ≤ estimateCSSSize href := by
  unfold estimateCSSSize
  repeat' split
  all_goals omega

/-- Script size estimates are non-negative. -/
theorem estimateJSSize_nonneg (src : String) : 0 ≤ estimateJSSize src := by
  unfold estimateJSSize
  repeat' split
  all_goals omega

/-- Image size estimates are non-negative. -/
theorem estimateImageSize_nonneg (src : String) : 0 ≤ estimateImageSize src := by
  simp only [estimateImageSize]
  repeat' split
  all_goals omega

/-- Font size estimates are non-negative. -/
theorem estimateFontSize_nonneg (href : String) : 0 ≤ estimateFontSize href := by
  simp only [estimateFontSize]
  repeat' split
  all_goals omega

/-- Other-resource size estimates are non-negative. -/
theorem estimateOtherResourceSize_nonneg (href : String) :
    0 ≤ estimateOtherResourceSize href := by
  unfold estimateOtherResourceSize
  repeat' split
  all_goals omega

/-- UTF-8 widths are non-negative. -/
theorem charUtf8Len_nonneg (c : Char) : 0 ≤ charUtf8Len c := by
  unfold charUtf8Len
  repeat' split
  all_goals omega

/-- UTF-8 byte lengths of character lists are non-negative. -/
theorem utf8LenCL_nonneg (l : List Char) : 0 ≤ utf8LenCL l := by
  induction l with
  | nil => simp [utf8LenCL]
  | cons c cs ih =>
    have := charUtf8Len_nonneg c
    simp only [utf8LenCL]
    omega

/-- UTF-8 byte lengths of strings are non-negative. -/
theorem utf8ByteLen_nonneg (s : String) : 0 ≤ utf8ByteLen s :=
  utf8LenCL_nonneg s.data

/-- The zero state is a well-formed contribution. -/
theorem okDelta_zero : okDelta zeroState := by
  unfold okDelta
  decide

/-- A pure stylesheet contribution with non-negative fields is well formed. -/
theorem okDelta_stylesheet (c s : Int) (hc : 0 ≤ c) (hs : 0 ≤ s) :
    okDelta ⟨{ zeroBreakdown with stylesheet := ⟨c, s⟩ }, s⟩ := by
  simp [okDelta, zeroBreakdown, zeroTally, sumSizes]
  omega

/-- A pure script contribution with non-negative fields is well formed. -/
theorem okDelta_script (c s : Int) (hc : 0 ≤ c) (hs : 0 ≤ s) :
    okDelta ⟨{ zeroBreakdown with script := ⟨c, s⟩ }, s⟩ := by
  simp [okDelta, zeroBreakdown, zeroTally, sumSizes]
  omega

/-- A pure image contribution with non-negative fields is well formed. -/
theorem okDelta_image (c s : Int) (hc : 0 ≤ c) (hs : 0 ≤ s) :
    okDelta ⟨{ zeroBreakdown with image := ⟨c, s⟩ }, s⟩ := by
  simp [okDelta, zeroBreakdown, zeroTally, sumSizes]
  omega

/-- A pure font contribution with non-negative fields is well formed. -/
theorem okDelta_font (c s : Int) (hc : 0 ≤ c) (hs : 0 ≤ s) :
    okDelta ⟨{ zeroBreakdown with font := ⟨c, s⟩ }, s⟩ := by
  simp [okDelta, zeroBreakdown, zeroTally, sumSizes]
  omega

/-- A pure other-category contribution with non-negative fields is well
formed. -/
theorem okDelta_other (c s : Int) (hc : 0 ≤ c) (hs : 0 ≤ s) :
    okDelta ⟨{ zeroBreakdown with other := ⟨c, s⟩ }, s⟩ := by
  simp [okDelta, zeroBreakdown, zeroTally, sumSizes]
  omega

/-- The CSS-link contribution is well formed. -/
theorem cssContrib_ok (e : Element) : okDelta (cssContrib e) := by
  unfold cssContrib
  repeat' split
  all_goals first
    | exact okDelta_zero
    | exact okDelta_stylesheet 1 _ (by omega) (estimateCSSSize_nonneg _)

/-- The inline-style contribution is well formed. -/
theorem inlineStyleContrib_ok (e : Element) : okDelta (inlineStyleContrib e) := by
  unfold inlineStyleContrib
  repeat' split
  all_goals first
    | exact okDelta_zero
    | exact okDelta_stylesheet 1 _ (by omega) (utf8ByteLen_nonneg _)

/-- The external-script contribution is well formed. -/
theorem scriptSrcContrib_ok (e : Element) : okDelta (scriptSrcContrib e) := by
  unfold scriptSrcContrib
  repeat' split
  all_goals first
    | exact okDelta_zero
    | exact okDelta_script 1 _ (by omega) (estimateJSSize_nonneg _)

/-- The inline-script contribution is well formed. -/
theorem inlineScriptContrib_ok (e : Element) : okDelta (inlineScriptContrib e) := by
  unfold inlineScriptContrib
  repeat' split
  all_goals first
    | exact okDelta_zero
    | exact okDelta_script 1 _ (by omega) (utf8ByteLen_nonneg _)

/-- The image contribution is well formed. -/
theorem imageContrib_ok (e : Element) : okDelta (imageContrib e) := by
  unfold imageContrib
  repeat' split
  all_goals first
    | exact okDelta_zero
    | exact okDelta_image 1 _ (by omega) (estimateImageSize_nonneg _)

/-- The direct-font-link contribution is well formed. -/
theorem fontLinkContrib_ok (e : Element) : okDelta (fontLinkContrib e) := by
  unfold fontLinkContrib
  repeat' split
  all_goals first
    | exact okDelta_zero
    | exact okDelta_font 1 _ (by omega) (estimateFontSize_nonneg _)

/-- The web-font contribution is well formed. -/
theorem webFontContrib_ok (e : Element) : okDelta (webFontContrib e) := by
  unfold webFontContrib
  repeat' split
  all_goals first
    | exact okDelta_zero
    | exact okDelta_font 2 60000 (by omega) (by omega)

/-- The other-resources contribution is well formed. -/
theorem otherResContrib_ok (e : Element) : okDelta (otherResContrib e) := by
  unfold otherResContrib
  repeat' split
  all_goals first
    | exact okDelta_zero
    | exact okDelta_other 1 _ (by omega) (estimateOtherResourceSize_nonneg _)

/-- Well-formed contributions are closed under addition. -/
theorem okDelta_add {a b : EstState} (ha : okDelta a) (hb : okDelta b) :
    okDelta (addSt a b) := by
  obtain ⟨⟨⟨a1, a2⟩, ⟨a3, a4⟩, ⟨a5, a6⟩, ⟨a7, a8⟩, ⟨a9, a10⟩, ⟨a11, a12⟩⟩, a13⟩ := a
  obtain ⟨⟨⟨b1, b2⟩, ⟨b3, b4⟩, ⟨b5, b6⟩, ⟨b7, b8⟩, ⟨b9, b10⟩, ⟨b11, b12⟩⟩, b13⟩ := b
  simp [okDelta, addSt, addBreakdown, addTally, sumSizes] at *
  omega

/-- The combined per-element contribution is well formed. -/
theorem ruleContrib_ok (e : Element) : okDelta (ruleContrib e) :=
  okDelta_add (cssContrib_ok e) (okDelta_add (inlineStyleContrib_ok e)
    (okDelta_add (scriptSrcContrib_ok e) (okDelta_add (inlineScriptContrib_ok e)
      (okDelta_add (imageContrib_ok e) (okDelta_add (fontLinkContrib_ok e)
        (okDelta_add (webFontContrib_ok e) (otherResContrib_ok e)))))))

/-- Invariant of the running estimator state: one document entry of size
zero, non-negative counts and sizes, and a running total equal to the size
sum. -/
def okState (st : EstState) : Prop :=
  st.breakdown.document.count = 1 ∧ st.breakdown.document.size = 0 ∧
  0 ≤ st.breakdown.stylesheet.count ∧ 0 ≤ st.breakdown.stylesheet.size ∧
  0 ≤ st.breakdown.script.count ∧ 0 ≤ st.breakdown.script.size ∧
  0 ≤ st.breakdown.image.count ∧ 0 ≤ st.breakdown.image.size ∧
  0 ≤ st.breakdown.font.count ∧ 0 ≤ st.breakdown.font.size ∧
  0 ≤ st.breakdown.other.count ∧ 0 ≤ st.breakdown.other.size ∧
  st.totalEstimatedSize = sumSizes st.breakdown

/-- The initial state satisfies the state invariant. -/
theorem okState_init : okState initState := by
  unfold okState
  decide

/-- A well-formed contribution preserves the state invariant. -/
theorem okState_add {st d : EstState} (hst : okState st) (hd : okDelta d) :
    okState (addSt st d) := by
  obtain ⟨⟨⟨a1, a2⟩, ⟨a3, a4⟩, ⟨a5, a6⟩, ⟨a7, a8⟩, ⟨a9, a10⟩, ⟨a11, a12⟩⟩, a13⟩ := st
  obtain ⟨⟨⟨b1, b2⟩, ⟨b3, b4⟩, ⟨b5, b6⟩, ⟨b7, b8⟩, ⟨b9, b10⟩, ⟨b11, b12⟩⟩, b13⟩ := d
  simp [okState, okDelta, addSt, addBreakdown, addTally, sumSizes] at *
  omega

/-- The final estimator state satisfies the state invariant for every
document. -/
theorem estimatorState_ok (doc : List Element) : okState (estimatorState doc) := by
  induction doc with
  | nil => rw [estimatorState_nil]; exact okState_init
  | cons e t ih => rw [estimatorState_cons]; exact okState_add ih (ruleContrib_ok e)

/-- The CSS-link contribution never touches the other five categories. -/
theorem cssContrib_parts (e : Element) :
    (cssContrib e).breakdown.document = zeroTally ∧
    (cssContrib e).breakdown.script = zeroTally ∧
    (cssContrib e).breakdown.image = zeroTally ∧
    (cssContrib e).breakdown.font = zeroTally ∧
    (cssContrib e).breakdown.other = zeroTally := by
  unfold cssContrib
  repeat' split
  all_goals simp [zeroState, zeroBreakdown]

/-- The inline-style contribution never touches the other five categories. -/
theorem inlineStyleContrib_parts (e : Element) :
    (inlineStyleContrib e).breakdown.document = zeroTally ∧
    (inlineStyleContrib e).breakdown.script = zeroTally ∧
    (inlineStyleContrib e).breakdown.image = zeroTally ∧
    (inlineStyleContrib e).breakdown.font = zeroTally ∧
    (inlineStyleContrib e).breakdown.other = zeroTally := by
  unfold inlineStyleContrib
  repeat' split
  all_goals simp [zeroState, zeroBreakdown]

/-- The external-script contribution never touches the other five
categories. -/
theorem scriptSrcContrib_parts (e : Element) :
    (scriptSrcContrib e).breakdown.document = zeroTally ∧
    (scriptSrcContrib e).breakdown.stylesheet = zeroTally ∧
    (scriptSrcContrib e).breakdown.image = zeroTally ∧
    (scriptSrcContrib e).breakdown.font = zeroTally ∧
    (scriptSrcContrib e).breakdown.other = zeroTally := by
  unfold scriptSrcContrib
  repeat' split
  all_goals simp [zeroState, zeroBreakdown]

/-- The inline-script contribution never touches the other five
categories. -/
theorem inlineScriptContrib_parts (e : Element) :
    (inlineScriptContrib e).breakdown.document = zeroTally ∧
    (inlineScriptContrib e).breakdown.stylesheet = zeroTally ∧
    (inlineScriptContrib e).breakdown.image = zeroTally ∧
    (inlineScriptContrib e).breakdown.font = zeroTally ∧
    (inlineScriptContrib e).breakdown.other = zeroTally := by
  unfold inlineScriptContrib
  repeat' split
  all_goals simp [zeroState, zeroBreakdown]

/-- The image contribution never touches the other five categories. -/
theorem imageContrib_parts (e : Element) :
    (imageContrib e).breakdown.document = zeroTally ∧
    (imageContrib e).breakdown.stylesheet = zeroTally ∧
    (imageContrib e).breakdown.script = zeroTally ∧
    (imageContrib e).breakdown.font = zeroTally ∧
    (imageContrib e).breakdown.other = zeroTally := by
  unfold imageContrib
  repeat' split
  all_goals simp [zeroState, zeroBreakdown]

/-- The direct-font-link contribution never touches the other five
categories. -/
theorem fontLinkContrib_parts (e : Element) :
    (fontLinkContrib e).breakdown.document = zeroTally ∧
    (fontLinkContrib e).breakdown.stylesheet = zeroTally ∧
    (fontLinkContrib e).breakdown.script = zeroTally ∧
    (fontLinkContrib e).breakdown.image = zeroTally ∧
    (fontLinkContrib e).breakdown.other = zeroTally := by
  unfold fontLinkContrib
  repeat' split
  all_goals simp [zeroState, zeroBreakdown]

/-- The web-font contribution never touches the other five categories. -/
theorem webFontContrib_parts (e : Element) :
    (webFontContrib e).breakdown.document = zeroTally ∧
    (webFontContrib e).breakdown.stylesheet = zeroTally ∧
    (webFontContrib e).breakdown.script = zeroTally ∧
    (webFontContrib e).breakdown.image = zeroTally ∧
    (webFontContrib e).breakdown.other = zeroTally := by
  unfold webFontContrib
  repeat' split
  all_goals simp [zeroState, zeroBreakdown]

/-- The other-resources contribution never touches the other five
categories. -/
theorem otherResContrib_parts (e : Element) :
    (otherResContrib e).breakdown.document = zeroTally ∧
    (otherResContrib e).breakdown.stylesheet = zeroTally ∧
    (otherResContrib e).breakdown.script = zeroTally ∧
    (otherResContrib e).breakdown.image = zeroTally ∧
    (otherResContrib e).breakdown.font = zeroTally := by
  unfold otherResContrib
  repeat' split
  all_goals simp [zeroState, zeroBreakdown]

/-- On a matching web-font link the web-font contribution is exactly two
font entries and a 60000-byte size. -/
theorem webFontContrib_of_match {e : Element} (hw : matchesWebFontCss e = true) :
    webFontContrib e = ⟨{ zeroBreakdown with font := ⟨2, 60000⟩ }, 60000⟩ := by
  simp [webFontContrib, hw]

/-- The breakdown returned by the analyzer is the final estimator state's
breakdown. -/
theorem analyze_breakdown (doc : List Element) (b : String) :
    (analyzeResourcesWithCheerio doc b).breakdown = (estimatorState doc).breakdown := rfl

/-- The size total returned by the analyzer is the final estimator state's
running total. -/
theorem analyze_total (doc : List Element) (b : String) :
    (analyzeResourcesWithCheerio doc b).totalEstimatedSize
      = (estimatorState doc).totalEstimatedSize := rfl

/-- Componentwise reading of a state sum at the font category. -/
theorem addSt_font (a b : EstState) :
    (addSt a b).breakdown.font
      = ⟨a.breakdown.font.count + b.breakdown.font.count,
         a.breakdown.font.size + b.breakdown.font.size⟩ := rfl

/-- Componentwise reading of a state sum at the stylesheet category. -/
theorem addSt_stylesheet (a b : EstState) :
    (addSt a b).breakdown.stylesheet
      = ⟨a.breakdown.stylesheet.count + b.breakdown.stylesheet.count,
         a.breakdown.stylesheet.size + b.breakdown.stylesheet.size⟩ := rfl

/-- String concatenation concatenates the underlying character lists. -/
theorem strDataAppend (a b : String) : (a ++ b).data = a.data ++ b.data := by
  cases a
  cases b
  rfl

/-- `takeWhile` over a satisfying block followed by a failing element returns
exactly the block. -/
theorem takeWhile_append_stop (p : Char → Bool) (a : List Char) (x : Char)
    (b : List Char) (ha : ∀ c ∈ a, p c = true) (hx : p x = false) :
    (a ++ x :: b).takeWhile p = a := by
  induction a with
  | nil => simp [List.takeWhile_cons, hx]
  | cons y t ih =>
    have hy : p y = true := ha y (by simp)
    simp only [List.cons_append, List.takeWhile_cons, hy, if_true]
    rw [ih (fun c hc => ha c (by simp [hc]))]

/-- Claim C1 (corrected), counterexample to the original: the spec's own
example link — `<link href="https://fonts.googleapis.com/css?family=Roboto">` —
ends with `font.count = 3` (1 direct + 2 web-font) but `font.size = 90000`
(30000 direct + a single 60000 web-font estimate), not the
30000 + 120000 = 150000 the claim's `2 × 60000` would give. -/
theorem webfont_size_cex :
    ((analyzeResourcesWithCheerio [googleFontsLink] "https://example.com").breakdown.font.count = 3) ∧
    ((analyzeResourcesWithCheerio [googleFontsLink] "https://example.com").breakdown.font.size = 90000) ∧
    ((fontLinkContrib googleFontsLink).breakdown.font = ⟨1, 30000⟩) ∧
    ¬((90000 : Int) = 30000 + 120000) := by
  decide

/-- Claim C1 (amended): a `<link>` whose href contains one of the web-font
hosts adds exactly 2 to `font.count` and exactly 60000 (one web-font-family
estimate, not 2 × 60000) to `font.size`, additively to and independently of
the direct `link[href*="font"]` rule's contribution. -/
theorem webfont_rule_additive (l1 l2 : List Element) (b : String) (e : Element)
    (hw : matchesWebFontCss e = true) :
    ((analyzeResourcesWithCheerio (l1 ++ e :: l2) b).breakdown.font.count
        = (analyzeResourcesWithCheerio (l1 ++ l2) b).breakdown.font.count
            + (fontLinkContrib e).breakdown.font.count + 2) ∧
    ((analyzeResourcesWithCheerio (l1 ++ e :: l2) b).breakdown.font.size
        = (analyzeResourcesWithCheerio (l1 ++ l2) b).breakdown.font.size
            + (fontLinkContrib e).breakdown.font.size + 60000) := by
  have hins := estimatorState_insert l1 l2 e
  have hwf := webFontContrib_of_match hw
  obtain ⟨-, -, -, hcssF, -⟩ := cssContrib_parts e
  obtain ⟨-, -, -, hisF, -⟩ := inlineStyleContrib_parts e
  obtain ⟨-, -, -, hssF, -⟩ := scriptSrcContrib_parts e
  obtain ⟨-, -, -, hiscF, -⟩ := inlineScriptContrib_parts e
  obtain ⟨-, -, -, himgF, -⟩ := imageContrib_parts e
  obtain ⟨-, -, -, -, horF⟩ := otherResContrib_parts e
  constructor <;>
    (simp only [analyze_breakdown]
     rw [hins]
     simp [ruleContrib, hwf, addSt, addBreakdown, addTally, hcssF, hisF, hssF,
       hiscF, himgF, horF, zeroTally, zeroBreakdown]
     omega)

/-- Claim C1 witness: the amended web-font rule instantiated at the spec's
Google-Fonts example link. -/
theorem webfont_rule_additive_witness :
    ((analyzeResourcesWithCheerio [googleFontsLink] "u").breakdown.font.count
        = (analyzeResourcesWithCheerio [] "u").breakdown.font.count
            + (fontLinkContrib googleFontsLink).breakdown.font.count + 2) ∧
    ((analyzeResourcesWithCheerio [googleFontsLink] "u").breakdown.font.size
        = (analyzeResourcesWithCheerio [] "u").breakdown.font.size
            + (fontLinkContrib googleFontsLink).breakdown.font.size + 60000) :=
  webfont_rule_additive [] [] "u" googleFontsLink (by decide)

/-- Claim C2: the analyzer's `totalRequests` is the sum of the six
categories' counts and its `totalEstimatedSize` is the sum of the six
categories' sizes, for every document and base URL. -/
theorem totals_are_sums (doc : List Element) (b : String) :
    (analyzeResourcesWithCheerio doc b).totalRequests
      = sumCounts (analyzeResourcesWithCheerio doc b).breakdown ∧
    (analyzeResourcesWithCheerio doc b).totalEstimatedSize
      = sumSizes (analyzeResourcesWithCheerio doc b).breakdown := by
  obtain ⟨-, -, -, -, -, -, -, -, -, -, -, -, h13⟩ := estimatorState_ok doc
  exact ⟨rfl, h13⟩

/-- Claim C2 witness: the aggregate identities at a concrete document. -/
theorem totals_are_sums_witness :
    (analyzeResourcesWithCheerio [jqueryScriptEl] "w").totalRequests
      = sumCounts (analyzeResourcesWithCheerio [jqueryScriptEl] "w").breakdown ∧
    (analyzeResourcesWithCheerio [jqueryScriptEl] "w").totalEstimatedSize
      = sumSizes (analyzeResourcesWithCheerio [jqueryScriptEl] "w").breakdown :=
  totals_are_sums [jqueryScriptEl] "w"

/-- Claim C3 (corrected), counterexample to the original: a script src
containing both `jquery` and `.min.js` that also contains `react` is
estimated at 200000, not 85000 — the framework checks precede the `jquery`
check. -/
theorem jquery_priority_cex :
    strHas "react-jquery.min.js" "jquery" = true ∧
    strHas "react-jquery.min.js" ".min.js" = true ∧
    estimateJSSize "react-jquery.min.js" = 200000 ∧
    ¬((200000 : Int) = 85000) := by
  decide

/-- Claim C3 (amended): for a src free of `react`, `vue` and `angular`, the
`jquery` check precedes the `.min.js` check, so any such src containing
`jquery` is estimated at 85000; in particular one
`<script src="jquery.min.js">` yields `script = ⟨1, 85000⟩`. -/
theorem jquery_priority :
    (∀ src : String, strHas src "react" = false → strHas src "vue" = false →
        strHas src "angular" = false → strHas src "jquery" = true →
        estimateJSSize src = 85000) ∧
    ((analyzeResourcesWithCheerio [jqueryScriptEl] "u").breakdown.script.count = 1 ∧
     (analyzeResourcesWithCheerio [jqueryScriptEl] "u").breakdown.script.size = 85000) := by
  constructor
  · intro src h1 h2 h3 h4
    simp [estimateJSSize, h1, h2, h3, h4]
  · exact (by decide)

/-- Claim C3 witness: the amended priority rule applied at
`jquery.min.js`. -/
theorem jquery_priority_witness : estimateJSSize "jquery.min.js" = 85000 :=
  jquery_priority.1 "jquery.min.js" (by decide) (by decide) (by decide)
    (by decide)

/-- Claim C4: the returned breakdown always carries `document.count = 1` and
`document.size = 0`. -/
theorem document_tally_constant (doc : List Element) (b : String) :
    (analyzeResourcesWithCheerio doc b).breakdown.document.count = 1 ∧
    (analyzeResourcesWithCheerio doc b).breakdown.document.size = 0 := by
  obtain ⟨h1, h2, -, -, -, -, -, -, -, -, -, -, -⟩ := estimatorState_ok doc
  exact ⟨h1, h2⟩

/-- Claim C4 witness: the document tally at a concrete document. -/
theorem document_tally_constant_witness :
    (analyzeResourcesWithCheerio [googleFontsLink] "v").breakdown.document.count = 1 ∧
    (analyzeResourcesWithCheerio [googleFontsLink] "v").breakdown.document.size = 0 :=
  document_tally_constant [googleFontsLink] "v"

/-- Claim C5: the estimator is a pure function of its two arguments — equal
inputs give equal outputs. -/
theorem estimator_deterministic (d1 d2 : List Element) (b1 b2 : String)
    (hd : d1 = d2) (hb : b1 = b2) :
    analyzeResourcesWithCheerio d1 b1 = analyzeResourcesWithCheerio d2 b2 := by
  rw [hd, hb]

/-- Claim C5 witness: determinism at a concrete repeated call. -/
theorem estimator_deterministic_witness :
    analyzeResourcesWithCheerio [fontAwesomeLink] "x"
      = analyzeResourcesWithCheerio [fontAwesomeLink] "x" :=
  estimator_deterministic [fontAwesomeLink] [fontAwesomeLink] "x" "x" rfl rfl

/-- Claim C6: the breakdown covers exactly the six fixed categories (the
`Breakdown` record has precisely these six fields, enumerated by
`Breakdown.get` over `Category`), and every category's count and size are
non-negative integers for every input. -/
theorem breakdown_six_nonneg (doc : List Element) (b : String) (c : Category) :
    0 ≤ ((analyzeResourcesWithCheerio doc b).breakdown.get c).count ∧
    0 ≤ ((analyzeResourcesWithCheerio doc b).breakdown.get c).size := by
  obtain ⟨h1, h2, h3, h4, h5, h6, h7, h8, h9, h10, h11, h12, -⟩ := estimatorState_ok doc
  cases c <;>
    exact ⟨by simp only [analyze_breakdown, Breakdown.get]; omega,
           by simp only [analyze_breakdown, Breakdown.get]; omega⟩

/-- Claim C6 witness: non-negativity at a concrete document and category. -/
theorem breakdown_six_nonneg_witness :
    0 ≤ ((analyzeResourcesWithCheerio [] "z").breakdown.get Category.font).count ∧
    0 ≤ ((analyzeResourcesWithCheerio [] "z").breakdown.get Category.font).size :=
  breakdown_six_nonneg [] "z" Category.font

/-- Claim C7: an `<img>` element with no `src`, no `srcset`, and no style
from which a background-image URL can be extracted contributes nothing: the
analysis of a document containing it equals the analysis of the document
without it. -/
theorem img_without_source_no_contribution (l1 l2 : List Element) (b : String)
    (e : Element) (htag : e.tag = "img") (hsrc : e.src = none)
    (hset : e.srcset = none) (hbg : extractBackgroundImage e.style = none) :
    analyzeResourcesWithCheerio (l1 ++ e :: l2) b
      = analyzeResourcesWithCheerio (l1 ++ l2) b := by
  have h1 : cssContrib e = zeroState := by
    simp [cssContrib, matchesCssLink, htag]
  have h2 : inlineStyleContrib e = zeroState := by
    simp [inlineStyleContrib, matchesInlineStyle, htag]
  have h3 : scriptSrcContrib e = zeroState := by
    simp [scriptSrcContrib, matchesScriptSrc, htag]
  have h4 : inlineScriptContrib e = zeroState := by
    simp [inlineScriptContrib, matchesInlineScript, htag]
  have himg : imageSrcOf e = none := by
    simp [imageSrcOf, hsrc, hset, hbg, jsOr, truthy]
  have h5 : imageContrib e = zeroState := by
    simp [imageContrib, himg]
  have h6 : fontLinkContrib e = zeroState := by
    simp [fontLinkContrib, matchesFontLink, htag]
  have h7 : webFontContrib e = zeroState := by
    simp [webFontContrib, matchesWebFontCss, htag]
  have h8 : otherResContrib e = zeroState := by
    simp [otherResContrib, matchesOtherRes, htag]
  have hrc : ruleContrib e = zeroState := by
    simp [ruleContrib, h1, h2, h3, h4, h5, h6, h7, h8, addSt_zero]
  have hst : estimatorState (l1 ++ e :: l2) = estimatorState (l1 ++ l2) := by
    rw [estimatorState_insert, hrc, addSt_zero]
  unfold analyzeResourcesWithCheerio
  rw [hst]

/-- Claim C7 witness: a bare `<img>` contributes nothing to a concrete
document. -/
theorem img_without_source_witness :
    analyzeResourcesWithCheerio [bareImg] "u" = analyzeResourcesWithCheerio [] "u" :=
  img_without_source_no_contribution [] [] "u" bareImg rfl rfl rfl rfl

/-- Claim C8: extension lookup takes everything after the final dot without
stripping query strings, so every `src` ending in `.png?v=2` falls through
to the image default 75000, whereas a plain `.png` src is estimated at
80000. -/
theorem extension_query_fallthrough :
    (∀ s : String, estimateImageSize (s ++ ".png?v=2") = 75000) ∧
    estimateImageSize "logo.png" = 80000 := by
  constructor
  · intro s
    have hext : extKey (s ++ ".png?v=2") = ("png?v=2").data.map Char.toLower := by
      unfold extKey afterLastDot
      rw [strDataAppend]
      rw [show (".png?v=2").data = '.' :: ("png?v=2").data from rfl]
      rw [List.reverse_append, List.reverse_cons, List.append_assoc,
        List.singleton_append]
      rw [takeWhile_append_stop _ _ '.' _ (by decide) (by decide)]
      rw [List.reverse_reverse]
    simp only [estimateImageSize, hext]
    decide
  · decide

/-- Claim C8 witness: the fallthrough applied at the concrete src
`photo.png?v=2`. -/
theorem extension_query_fallthrough_witness :
    estimateImageSize ("photo" ++ ".png?v=2") = 75000 :=
  extension_query_fallthrough.1 "photo"

/-- Claim C9: the analyzer's output never depends on the `baseUrl`
argument. -/
theorem baseurl_independent (doc : List Element) (b1 b2 : String) :
    analyzeResourcesWithCheerio doc b1 = analyzeResourcesWithCheerio doc b2 := rfl

/-- Claim C9 witness: baseUrl irrelevance at a concrete document and two
different base URLs. -/
theorem baseurl_independent_witness :
    analyzeResourcesWithCheerio [fontAwesomeLink] "https://a.example"
      = analyzeResourcesWithCheerio [fontAwesomeLink] "https://b.example" :=
  baseurl_independent [fontAwesomeLink] "https://a.example" "https://b.example"

/-- Claim C10: a `<link rel="stylesheet">` whose href contains `font` (and
matches no web-font host) is tallied twice: once in `stylesheet` with its
CSS size estimate and once in `font` with its font size estimate. -/
theorem stylesheet_font_dual_count (l1 l2 : List Element) (b : String)
    (e : Element) (h : String) (htag : e.tag = "link")
    (hrel : e.rel = some "stylesheet") (hhref : e.href = some h)
    (hne : h.data.isEmpty = false) (hfont : strHas h "font" = true)
    (hnw : matchesWebFontCss e = false) :
    ((analyzeResourcesWithCheerio (l1 ++ e :: l2) b).breakdown.stylesheet.count
        = (analyzeResourcesWithCheerio (l1 ++ l2) b).breakdown.stylesheet.count + 1) ∧
    ((analyzeResourcesWithCheerio (l1 ++ e :: l2) b).breakdown.stylesheet.size
        = (analyzeResourcesWithCheerio (l1 ++ l2) b).breakdown.stylesheet.size
            + estimateCSSSize h) ∧
    ((analyzeResourcesWithCheerio (l1 ++ e :: l2) b).breakdown.font.count
        = (analyzeResourcesWithCheerio (l1 ++ l2) b).breakdown.font.count + 1) ∧
    ((analyzeResourcesWithCheerio (l1 ++ e :: l2) b).breakdown.font.size
        = (analyzeResourcesWithCheerio (l1 ++ l2) b).breakdown.font.size
            + estimateFontSize h) := by
  have hcss : cssContrib e
      = ⟨{ zeroBreakdown with stylesheet := ⟨1, estimateCSSSize h⟩ },
         estimateCSSSize h⟩ := by
    simp [cssContrib, matchesCssLink, htag, hrel, hhref, hne]
  have hfl : fontLinkContrib e
      = ⟨{ zeroBreakdown with font := ⟨1, estimateFontSize h⟩ },
         estimateFontSize h⟩ := by
    simp [fontLinkContrib, matchesFontLink, htag, hrel, hhref, hne, hfont]
  have hwf : webFontContrib e = zeroState := by simp [webFontContrib, hnw]
  have his : inlineStyleContrib e = zeroState := by
    simp [inlineStyleContrib, matchesInlineStyle, htag]
  have hss : scriptSrcContrib e = zeroState := by
    simp [scriptSrcContrib, matchesScriptSrc, htag]
  have hisc : inlineScriptContrib e = zeroState := by
    simp [inlineScriptContrib, matchesInlineScript, htag]
  have hor : otherResContrib e = zeroState := by
    simp [otherResContrib, matchesOtherRes, htag, hrel]
  obtain ⟨-, himgSty, -, himgFont, -⟩ := imageContrib_parts e
  have hins := estimatorState_insert l1 l2 e
  refine ⟨?_, ?_, ?_, ?_⟩ <;>
    (simp only [analyze_breakdown]
     rw [hins]
     simp [ruleContrib, hcss, hfl, hwf, his, hss, hisc, hor, himgSty, himgFont,
       addSt, addBreakdown, addTally, zeroState, zeroBreakdown, zeroTally]
     try omega)

/-- Claim C10 witness: the dual tally at the concrete
`<link rel="stylesheet" href="font-awesome.min.css">`. -/
theorem stylesheet_font_dual_count_witness :
    ((analyzeResourcesWithCheerio [fontAwesomeLink] "u").breakdown.stylesheet.count
        = (analyzeResourcesWithCheerio [] "u").breakdown.stylesheet.count + 1) ∧
    ((analyzeResourcesWithCheerio [fontAwesomeLink] "u").breakdown.stylesheet.size
        = (analyzeResourcesWithCheerio [] "u").breakdown.stylesheet.size
            + estimateCSSSize "font-awesome.min.css") ∧
    ((analyzeResourcesWithCheerio [fontAwesomeLink] "u").breakdown.font.count
        = (analyzeResourcesWithCheerio [] "u").breakdown.font.count + 1) ∧
    ((analyzeResourcesWithCheerio [fontAwesomeLink] "u").breakdown.font.size
        = (analyzeResourcesWithCheerio [] "u").breakdown.font.size
            + estimateFontSize "font-awesome.min.css") :=
  stylesheet_font_dual_count [] [] "u" fontAwesomeLink "font-awesome.min.css"
    rfl rfl rfl (by decide) (by decide) (by decide)
